import Mathlib

/-!
Verification of the longshot scroll-and-stitch capture pipeline.

The development shallowly embeds the capture planner and collector of the
background service worker (`scrollAndStitchCapture`), its session progress
tracker (`updateCaptureState` / `currentCaptureState`), the keyboard-shortcut
guard, and the viewport stitcher of the offscreen document
(`stitchCapturedViewports`, `sanitizeCanvasDimension`).  JavaScript numbers are
modelled as `ℤ`/`ℚ` (`Math.ceil` of an integer quotient as exact integer
ceiling division, `Math.floor` as `Rat.floor`, `Math.round` as floor of the
value plus one half), canvas pixels as premultiplied single-channel rational
colors with source-over compositing, and the sequential control flow of a
capture session as explicit lists of tracker writes.
-/

/- ## Planner constants (background worker) -/

/-- Fixed 75px overlap between consecutive captures (`OVERLAP_HEIGHT`). -/
def OVERLAP_HEIGHT : ℕ := 75

/-- Safety ceiling on the number of captures (`MAX_CAPTURES`). -/
def MAX_CAPTURES : ℕ := 100

/-- Memory-safety threshold on the page height (`MAX_TOTAL_HEIGHT`). -/
def MAX_TOTAL_HEIGHT : ℕ := 32000

/-- The JS `Math.ceil (p / q)` for integers `p`, `q` with `q ≠ 0`, as exact integer
arithmetic: the ceiling of the rational quotient, computed with Euclidean
(floor) division.  `jsCeilDiv_eq_ceil` below proves it equal to the rational
ceiling, justifying the encoding once and for all. -/
def jsCeilDiv (p q : ℤ) : ℤ :=
  if 0 < q then -((-p) / q) else -(p / (-q))

/-- Number of planned captures.  Mirrors
`let numCaptures = 1; if (scrollHeight > viewportHeight) { numCaptures =
Math.ceil(scrollableHeight / (viewportHeight - OVERLAP_HEIGHT)) + 1; }
numCaptures = Math.min(numCaptures, MAX_CAPTURES)`.
When `viewportHeight = overlapHeight` the JS division of the positive
`scrollableHeight` by zero yields `Infinity` and the `min` yields
`MAX_CAPTURES`; that case is split off so the remaining cases are the exact
ceiling of the quotient.  A negative count (possible only for
`overlapHeight > viewportHeight`, a configuration error) makes the JS `for`
loop run zero times, matching `Int.toNat`. -/
def numCaptures (scrollHeight viewportHeight overlapHeight : ℕ) : ℕ :=
  if viewportHeight < scrollHeight then
    if viewportHeight = overlapHeight then MAX_CAPTURES
    else
      (min (jsCeilDiv ((scrollHeight : ℤ) - (viewportHeight : ℤ))
          ((viewportHeight : ℤ) - (overlapHeight : ℤ)) + 1) (MAX_CAPTURES : ℤ)).toNat
  else 1

/-- Requested scroll offset of capture `i`:
`const scrollY = i * (viewportHeight - OVERLAP_HEIGHT)`. -/
def plannedScrollY (viewportHeight overlapHeight : ℕ) (i : ℕ) : ℤ :=
  (i : ℤ) * ((viewportHeight : ℤ) - (overlapHeight : ℤ))

/-- Offsets at which the capture loop actually takes a frame.  The loop body
begins with `if (scrollY > scrollHeight - viewportHeight) break`, so iteration
stops at the first planned offset past `scrollHeight - viewportHeight`;
`takeWhile` over `List.range numCaptures` models the `for` loop with `break`. -/
def planOffsets (scrollHeight viewportHeight overlapHeight : ℕ) : List ℤ :=
  ((List.range (numCaptures scrollHeight viewportHeight overlapHeight)).takeWhile
    (fun i => decide (plannedScrollY viewportHeight overlapHeight i ≤
      (scrollHeight : ℤ) - (viewportHeight : ℤ)))).map
    (plannedScrollY viewportHeight overlapHeight)

/-- Metadata stored by `captures.push` for one realized capture. -/
structure CapturedFrame where
  scrollY : ℤ
  viewportHeight : ℕ
  viewportWidth : ℕ
  isLastCapture : Bool
deriving DecidableEq, Repr

/-- Frames recorded by the capture loop.  `scrolledToY` models the content
script's `scrollToPosition`, which always resolves successfully and reports the
landed position `window.scrollY` (it may clamp near page edges).  The loop
awaits that confirmation and logs `scrollResult.scrolledToY`, but
`captures.push` stores the requested loop variable `scrollY`, and
`isLastCapture := scrollY + viewportHeight >= scrollHeight`. -/
def collectFrames (scrolledToY : ℤ → ℤ)
    (scrollHeight viewportHeight viewportWidth overlapHeight : ℕ) : List CapturedFrame :=
  (planOffsets scrollHeight viewportHeight overlapHeight).map
    (fun y =>
      { scrollY := y
        viewportHeight := viewportHeight
        viewportWidth := viewportWidth
        isLastCapture := decide (y + (viewportHeight : ℤ) ≥ (scrollHeight : ℤ)) })

/- ## Per-offset capture retry policy (`chrome.tabs.captureVisibleTab` loop) -/

/-- Outcome of one invocation of the frame grabber: success, a failure whose
message contains `quota`, or any other failure. -/
inductive GrabOutcome where
  | ok
  | quotaErr
  | otherErr
deriving DecidableEq, Repr

/-- Result of the retry loop around the grabber.  `attemptsUsed` counts grabber
invocations, `backoffDelays` the waits (in ms) performed between attempts.
`exhausted` marks the loop condition `retries > 0` turning false without a
`break` or a throw; it is unreachable from the initial `retries = 3`. -/
inductive RetryResult where
  | captured (attemptsUsed : ℕ) (backoffDelays : List ℕ)
  | thrown (failure : GrabOutcome) (attemptsUsed : ℕ) (backoffDelays : List ℕ)
  | exhausted (attemptsUsed : ℕ) (backoffDelays : List ℕ)
deriving DecidableEq, Repr

/-- Grabber invocations counted by a `RetryResult`. -/
def RetryResult.attempts : RetryResult → ℕ
  | .captured n _ => n
  | .thrown _ n _ => n
  | .exhausted n _ => n

/-- The retry loop: `while (retries > 0) { try { dataUrl = await
chrome.tabs.captureVisibleTab(...); break; } catch (captureError) { retries--;
if (captureError.message.includes('quota') && retries > 0) { await delay(1000);
} else { throw captureError; } } }`.  `grab n` is the outcome of the `n`-th
invocation (0-based); `retries` is the loop counter, structurally decreasing. -/
def captureAttemptLoop (grab : ℕ → GrabOutcome) (attempt : ℕ)
    (delays : List ℕ) : ℕ → RetryResult
  | 0 => .exhausted attempt delays
  | r + 1 =>
    match grab attempt with
    | .ok => .captured (attempt + 1) delays
    | .quotaErr =>
      if 0 < r then captureAttemptLoop grab (attempt + 1) (delays ++ [1000]) r
      else .thrown .quotaErr (attempt + 1) delays
    | .otherErr => .thrown .otherErr (attempt + 1) delays

/-- One per-offset frame grab under the bounded retry policy, starting from
`let retries = 3`. -/
def captureWithRetry (grab : ℕ → GrabOutcome) : RetryResult :=
  captureAttemptLoop grab 0 [] 3

/- ## Session progress tracker (`updateCaptureState`, `currentCaptureState`) -/

/-- One tracker write, the record assigned to `currentCaptureState` (the
`timestamp` field, `Date.now()`, carries no information the claims need and is
not modelled). -/
structure StateWrite where
  sessionId : String
  status : String
  message : String
  progress : Option ℕ
deriving DecidableEq, Repr

/-- The function `updateCaptureState` overwrites `currentCaptureState` unconditionally with
the new record (it also notifies the popup, a fire-and-forget side effect). -/
def updateCaptureState (_current : Option StateWrite) (w : StateWrite) :
    Option StateWrite := some w

/-- Tracker state after a sequence of writes, starting from the initial
`currentCaptureState = null`. -/
def runWrites (ws : List StateWrite) : Option StateWrite :=
  ws.foldl updateCaptureState none

/-- The JS `Math.round((i / numCaptures) * 100)` as exact arithmetic on naturals:
`Math.round x = Math.floor (x + 1/2)` and
`⌊100 * i / n + 1 / 2⌋ = (200 * i + n) / (2 * n)` in natural division
(`jsRound100_eq` below).  The source computes the quotient in binary floating
point; the model uses the exact rational value. -/
def jsRound100 (i n : ℕ) : ℕ := (200 * i + n) / (2 * n)

/-- The tracker writes of one successful capture session with plan size `n`
whose capture loop runs `k` iterations (the `stabilizing` write only happens
when `config.preCapture` is set, which is off by default): `started` from
`startCapture`, `preparing` and the dimension query from
`scrollAndStitchCapture`, one `capturing` write with progress
`Math.round((i / numCaptures) * 100)` per loop iteration (written before the
grab), the `stitching` write at fixed progress 95, then `downloading` and
`completed` at 100 from `startCapture`. -/
def sessionWrites (sid : String) (n k : ℕ) : List StateWrite :=
  [⟨sid, "started", "Starting capture...", none⟩,
   ⟨sid, "preparing", "Preparing page...", none⟩,
   ⟨sid, "capturing", "Getting page dimensions...", none⟩]
  ++ (List.range k).map (fun i =>
      ⟨sid, "capturing",
        "Capturing viewport " ++ toString (i + 1) ++ "/" ++ toString n ++ "...",
        some (jsRound100 i n)⟩)
  ++ [⟨sid, "stitching", "Stitching captures together...", some 95⟩,
      ⟨sid, "downloading", "Downloading image...", none⟩,
      ⟨sid, "completed", "Capture complete!", some 100⟩]

/-- The numeric progress values of a write sequence, in order (writes with
`progress = null` carry no numeric value). -/
def numericProgress (ws : List StateWrite) : List ℕ :=
  ws.filterMap (fun w => w.progress)

/-- Terminal write and scheduled cleanup at the end of `startCapture`.  On
success it writes `completed` with progress 100 and schedules (`setTimeout`,
5000 ms) a conditional clear of `currentCaptureState`; on failure the `catch`
block writes `error` with the failure message and schedules nothing. -/
def startCaptureFinalize (sid errMsg : String) (ok : Bool) : StateWrite × Option ℕ :=
  if ok then
    (⟨sid, "completed", "Capture complete!", some 100⟩, some 5000)
  else
    (⟨sid, "error", "Capture failed: " ++ errMsg, none⟩, none)

/-- The deferred clear: `if (currentCaptureState && currentCaptureState.sessionId
=== sessionId) { currentCaptureState = null; }`. -/
def clearIfCurrent (cur : Option StateWrite) (sid : String) : Option StateWrite :=
  match cur with
  | some s => if s.sessionId = sid then none else some s
  | none => none

/-- The `capture-page` hotkey guard: the command starts a capture unless
`currentCaptureState && currentCaptureState.status !== 'completed' &&
currentCaptureState.status !== 'error'`. -/
def hotkeyStartsNewCapture (cur : Option StateWrite) : Bool :=
  match cur with
  | none => true
  | some s => s.status == "completed" || s.status == "error"

/- ## Image stitcher (offscreen document) -/

/-- A JavaScript number as seen by `sanitizeCanvasDimension`: `NaN`, the two
infinities, or a finite value. -/
inductive JNum where
  | nan
  | posInf
  | negInf
  | fin (q : ℚ)
deriving DecidableEq

/-- The sanitizer `sanitizeCanvasDimension(value, defaultValue)`: `undefined`/`null` (modelled
as `none`) falls back to the default; so do `NaN` and the infinities
(`isNaN(numValue) || !isFinite(numValue)`); otherwise the value is floored
(`Math.floor`, i.e. `Rat.floor`), replaced by the default if below 1, and
capped at 32767. -/
def sanitizeCanvasDimension (value : Option JNum) (defaultValue : ℤ) : ℤ :=
  match value with
  | none => defaultValue
  | some (JNum.fin q) =>
    let intValue := q.floor
    let intValue2 := if intValue < 1 then defaultValue else intValue
    if intValue2 > 32767 then 32767 else intValue2
  | some _ => defaultValue

/-- A premultiplied single-channel pixel with alpha, enough to express the
canvas source-over compositing the stitcher relies on. -/
structure Px where
  c : ℚ
  a : ℚ
deriving DecidableEq, Repr

/-- A canvas starts fully transparent. -/
def Px.transparent : Px := ⟨0, 0⟩

/-- Source-over compositing of premultiplied pixels: the canvas default
`globalCompositeOperation`. -/
def overComposite (s b : Px) : Px :=
  ⟨s.c + b.c * (1 - s.a), s.a + b.a * (1 - s.a)⟩

/-- A decoded captured image: fully opaque source pixels (PNG captures of the
viewport carry no transparency). -/
structure JImage where
  width : ℕ
  height : ℕ
  pix : ℕ → ℕ → ℚ

/-- The stitcher's output canvas. -/
structure Canvas where
  width : ℕ
  height : ℕ
  pix : ℕ → ℕ → Px

/-- The call `ctx.drawImage(img, sx, sy, sw, sh, dx, dy, dw, dh)` under
`ctx.globalAlpha = ga`, for the stitcher's calls, which all have `dw = sw` and
`dh = sh` (no scaling): each destination pixel inside the canvas and the
destination rectangle receives the source pixel at the same offset, with source
alpha `ga`, composited source-over onto the existing canvas content.  A
non-positive JS `sh` (possible only when a frame is not taller than the
overlap) draws nothing, matching the truncated `ℕ` subtraction producing an
empty rectangle. -/
def drawImage (cv : Canvas) (img : JImage) (sx sy sw sh dx dy : ℕ) (ga : ℚ) : Canvas :=
  { cv with
    pix := fun x y =>
      if x < cv.width ∧ y < cv.height ∧ dx ≤ x ∧ x < dx + sw ∧ dy ≤ y ∧ y < dy + sh then
        overComposite ⟨ga * img.pix (sx + (x - dx)) (sy + (y - dy)), ga⟩ (cv.pix x y)
      else cv.pix x y }

/-- Canvas height computation: `let totalHeight = images[0].img.height;
for (let i = 1; ...) { totalHeight += images[i].img.height - overlapHeight; }`,
over `ℤ` because the JS subtraction may go negative. -/
def stitchTotalHeight (heights : List ℤ) (overlapHeight : ℤ) : ℤ :=
  match heights with
  | [] => 0
  | h0 :: rest => rest.foldl (fun acc h => acc + (h - overlapHeight)) h0

/-- One iteration of the stitcher's draw loop, state `(canvas, i, currentY)`:
`drawHeight = i === 0 ? h : h - overlapHeight`, `sourceY = i === 0 ? 0 :
overlapHeight`; for `i > 0` first a draw of the `overlapHeight` source rows
starting at `sourceY` to `y = currentY` with `globalAlpha = 0.5`, then the main
draw of `drawHeight - (i > 0 ? overlapHeight : 0)` source rows starting at
`sourceY` to `y = currentY + (i > 0 ? overlapHeight : 0)` at full alpha, then
`currentY += drawHeight`. -/
def stitchDrawStep (overlapHeight canvasWidth : ℕ) (st : Canvas × ℕ × ℕ)
    (img : JImage) : Canvas × ℕ × ℕ :=
  let cv := st.1
  let i := st.2.1
  let currentY := st.2.2
  let drawHeight := if i = 0 then img.height else img.height - overlapHeight
  let sourceY := if i = 0 then 0 else overlapHeight
  let cv1 :=
    if 0 < i then
      drawImage cv img 0 sourceY canvasWidth overlapHeight 0 currentY (1 / 2)
    else cv
  let cv2 :=
    drawImage cv1 img 0 sourceY canvasWidth
      (drawHeight - (if 0 < i then overlapHeight else 0)) 0
      (currentY + (if 0 < i then overlapHeight else 0)) 1
  (cv2, i + 1, currentY + drawHeight)

/-- The stitcher `stitchCapturedViewports(captures, overlapHeight)`: fails (`throw`) on an
empty list; otherwise sizes the canvas by `sanitizeCanvasDimension` of
`images[0].img.width` (default 800) and of the accumulated `totalHeight`
(default 600), then runs the draw loop from `currentY = 0` over all images. -/
def stitchCapturedViewports (images : List JImage) (overlapHeight : ℕ) :
    Option Canvas :=
  match images with
  | [] => none
  | img0 :: _ =>
    let canvasWidth := img0.width
    let totalHeight :=
      stitchTotalHeight (images.map (fun im => (im.height : ℤ))) (overlapHeight : ℤ)
    let sanitizedWidth :=
      sanitizeCanvasDimension (some (JNum.fin ((canvasWidth : ℤ) : ℚ))) 800
    let sanitizedHeight :=
      sanitizeCanvasDimension (some (JNum.fin (totalHeight : ℚ))) 600
    let outputCanvas : Canvas :=
      { width := sanitizedWidth.toNat
        height := sanitizedHeight.toNat
        pix := fun _ _ => Px.transparent }
    some ((images.foldl (stitchDrawStep overlapHeight canvasWidth)
      (outputCanvas, 0, 0)).1)

/-- Width of a stitch result. -/
def stitchedWidth (r : Option Canvas) : Option ℕ := r.map (fun cv => cv.width)

/-- Height of a stitch result. -/
def stitchedHeight (r : Option Canvas) : Option ℕ := r.map (fun cv => cv.height)

/-- Pixel of a stitch result. -/
def stitchedPix (r : Option Canvas) (x y : ℕ) : Option Px :=
  r.map (fun cv => cv.pix x y)

/-- Concrete first frame for evaluating the stitcher: width 1, height 6, pixel
value equal to the row index. -/
def frameA : JImage := ⟨1, 6, fun _ y => (y : ℚ)⟩

/-- Concrete second frame: width 1, height 6, pixel value `100 + row index`. -/
def frameB : JImage := ⟨1, 6, fun _ y => 100 + (y : ℚ)⟩

/-- Concrete frame for witness instances: width 2, height 3, pixel value
`x + 10 * y`. -/
def witnessImage : JImage := ⟨2, 3, fun x y => (x : ℚ) + 10 * (y : ℚ)⟩

/-- Concrete 800 × 40000 frame exercising the height clamp. -/
def tallImage : JImage := ⟨800, 40000, fun _ _ => 0⟩

/- ## Helper lemmas -/

/-- Helper: `Math.ceil` of a positive-denominator integer quotient via `-((-p) / d)`. -/
theorem ceil_intCast_div_natCast (p : ℤ) (d : ℕ) :
    ⌈(p : ℚ) / (d : ℚ)⌉ = -((-p) / (d : ℤ)) := by
  have h1 : (⌊-((p : ℚ) / (d : ℚ))⌋ : ℤ) = -⌈(p : ℚ) / (d : ℚ)⌉ := Int.floor_neg
  have h2 : -((p : ℚ) / (d : ℚ)) = ((-p : ℤ) : ℚ) / ((d : ℕ) : ℚ) := by
    push_cast
    ring
  have h3 : ⌊((-p : ℤ) : ℚ) / ((d : ℕ) : ℚ)⌋ = (-p) / (d : ℤ) :=
    Rat.floor_intCast_div_natCast (-p) d
  rw [h2] at h1
  rw [h3] at h1
  omega

/-- The integer encoding of `Math.ceil (p / q)` agrees with the rational
ceiling for every nonzero divisor. -/
theorem jsCeilDiv_eq_ceil (p q : ℤ) (hq : q ≠ 0) :
    jsCeilDiv p q = ⌈(p : ℚ) / (q : ℚ)⌉ := by
  rcases lt_or_gt_of_ne hq with h | h
  · rw [jsCeilDiv, if_neg (by omega)]
    have hq2 : ((-q).toNat : ℤ) = -q := by omega
    have hmul : (p : ℚ) / (q : ℚ) = ((p : ℚ)) * (-1) / ((q : ℚ) * (-1)) := by
      rw [mul_div_mul_right _ _ (by norm_num)]
    rw [hmul]
    have e1 : ((p : ℚ)) * (-1) = ((-p : ℤ) : ℚ) := by push_cast; ring
    have e2 : ((q : ℚ)) * (-1) = (((-q).toNat : ℕ) : ℚ) := by
      have e3 : (((-q).toNat : ℕ) : ℚ) = (((-q).toNat : ℤ) : ℚ) := by push_cast; ring
      rw [e3, hq2]
      push_cast
      ring
    rw [e1, e2, ceil_intCast_div_natCast (-p) (-q).toNat, hq2]
    simp only [neg_neg]
  · rw [jsCeilDiv, if_pos h]
    have hq2 : ((q.toNat : ℕ) : ℤ) = q := by omega
    have e2 : (q : ℚ) = ((q.toNat : ℕ) : ℚ) := by
      have e3 : ((q.toNat : ℕ) : ℚ) = ((q.toNat : ℤ) : ℚ) := by push_cast; ring
      rw [e3, hq2]
    rw [e2, ceil_intCast_div_natCast p q.toNat, hq2]

/- ## Claim theorems: planner and collector -/

/-- Claim C1, counterexample: for `scrollHeight = 3000, viewportHeight = 1000,
overlapHeight = 75` the capture loop does not produce the claimed offsets
`[0, 925, 1850, 2000]` and the realized offset count is not 4: no capping of
the last offset to `scrollHeight - viewportHeight` occurs. -/
theorem claim1_counterexample :
    planOffsets 3000 1000 75 ≠ [0, 925, 1850, 2000] ∧
      (planOffsets 3000 1000 75).length ≠ 4 := by
  decide

/-- Claim C1, amended: `numCaptures` is 4, but the loop breaks at the fourth
planned offset `2775 > 2000`, so only the 3 offsets `0, 925, 1850` are
captured; the final frame's bottom edge is `1850 + 1000 = 2850 < 3000`, and
accordingly no recorded frame has `isLastCapture = true`. -/
theorem claim1_amended :
    numCaptures 3000 1000 75 = 4 ∧
      planOffsets 3000 1000 75 = [0, 925, 1850] ∧
      plannedScrollY 1000 75 3 = 2775 ∧
      (collectFrames (fun y => y) 3000 1000 1280 75).map
        (fun f => f.isLastCapture) = [false, false, false] := by
  decide

/-- Claim C4, the code evaluated at the failing input: for
`scrollHeight = 500 < viewportHeight = 1000` the plan size is 1, but the loop
breaks before the first capture (`0 > 500 - 1000`), so zero frames are
collected and the collector throws `No captures were collected`; only at
`scrollHeight = viewportHeight` does a single frame at offset 0 result. -/
theorem claim4_code_eval :
    numCaptures 500 1000 75 = 1 ∧
      planOffsets 500 1000 75 = [] ∧
      collectFrames (fun y => y) 500 1000 1280 75 = [] ∧
      planOffsets 1000 1000 75 = [0] := by
  decide

/-- Claim C6, counterexample: with a controller that clamps every landed
position to at most 900, the recorded `scrollY` of the second frame is the
requested 925, not the landed 900. -/
theorem claim6_counterexample :
    (collectFrames (fun y => min y 900) 3000 1000 1280 75).map
        (fun f => f.scrollY) = [0, 925, 1850] ∧
      min (925 : ℤ) 900 = 900 ∧ (925 : ℤ) ≠ 900 := by
  decide

/-- Claim C6, amended: the recorded `scrollY` values are exactly the requested
planned offsets, independent of the controller-reported landed positions. -/
theorem claim6_amended (scrolledToY : ℤ → ℤ)
    (scrollHeight viewportHeight viewportWidth overlapHeight : ℕ) :
    (collectFrames scrolledToY scrollHeight viewportHeight viewportWidth
        overlapHeight).map (fun f => f.scrollY) =
      planOffsets scrollHeight viewportHeight overlapHeight := by
  unfold collectFrames
  rw [List.map_map]
  exact List.map_id _

/- ## Claim theorems: retry policy -/

/-- Helper: the retry loop never uses more grabber invocations than its
remaining retry budget. -/
theorem captureAttemptLoop_attempts_le (grab : ℕ → GrabOutcome) :
    ∀ (r attempt : ℕ) (delays : List ℕ),
      (captureAttemptLoop grab attempt delays r).attempts ≤ attempt + r := by
  intro r
  induction r with
  | zero =>
    intro a d
    simp [captureAttemptLoop, RetryResult.attempts]
  | succ n ih =>
    intro a d
    rw [captureAttemptLoop]
    cases h : grab a with
    | ok => simp [RetryResult.attempts]
    | quotaErr =>
      by_cases hn : 0 < n
      · rw [if_pos hn]
        exact le_trans (ih (a + 1) (d ++ [1000])) (by omega)
      · rw [if_neg hn]
        simp [RetryResult.attempts]
    | otherErr => simp [RetryResult.attempts]

/-- Claim C5: the per-offset grab makes at most 3 attempts; two quota failures
followed by a success yields exactly 3 invocations, a recorded frame and two
fixed 1000 ms backoffs; three consecutive quota failures abort after 3
invocations with the quota failure (aborting the whole collection); and a
non-quota failure on any reachable attempt `j` (the loop reaches attempt `j`
only after `j` quota failures, each followed by its 1000 ms backoff) aborts at
once with the non-quota failure: exactly `j + 1` invocations and no further
retry or backoff after the failing attempt. -/
theorem claim5_retry_policy :
    (∀ grab : ℕ → GrabOutcome, (captureWithRetry grab).attempts ≤ 3) ∧
      captureWithRetry (fun n => if n < 2 then GrabOutcome.quotaErr else GrabOutcome.ok) =
        RetryResult.captured 3 [1000, 1000] ∧
      captureWithRetry (fun _ => GrabOutcome.quotaErr) =
        RetryResult.thrown GrabOutcome.quotaErr 3 [1000, 1000] ∧
      (∀ (grab : ℕ → GrabOutcome) (j : ℕ), j < 3 →
        (∀ i, i < j → grab i = GrabOutcome.quotaErr) →
        grab j = GrabOutcome.otherErr →
        captureWithRetry grab =
          RetryResult.thrown GrabOutcome.otherErr (j + 1) (List.replicate j 1000)) := by
  refine ⟨fun grab => captureAttemptLoop_attempts_le grab 3 0 [], by decide, by decide, ?_⟩
  intro grab j hj hpre hfail
  rcases j with _ | _ | _ | j
  · simp [captureWithRetry, captureAttemptLoop, hfail]
  · have h0 := hpre 0 (by omega)
    simp [captureWithRetry, captureAttemptLoop, h0, hfail, List.replicate]
  · have h0 := hpre 0 (by omega)
    have h1 := hpre 1 (by omega)
    simp [captureWithRetry, captureAttemptLoop, h0, h1, hfail, List.replicate]
  · omega

/-- Claim C5, witness: the retry-policy theorem applied to the grabber that
fails with a quota error on the first attempt and a non-quota error on the
second: the loop backs off once, retries, and then aborts immediately after 2
invocations. -/
theorem claim5_retry_policy_witness :
    (captureWithRetry
        (fun n => if n = 0 then GrabOutcome.quotaErr else GrabOutcome.otherErr)).attempts ≤ 3 ∧
      captureWithRetry
        (fun n => if n = 0 then GrabOutcome.quotaErr else GrabOutcome.otherErr) =
        RetryResult.thrown GrabOutcome.otherErr 2 [1000] :=
  ⟨claim5_retry_policy.1 _,
    claim5_retry_policy.2.2.2 _ 1 (by omega)
      (fun i hi => by
        have hi0 : i = 0 := by omega
        subst hi0
        rfl)
      rfl⟩

/- ## Claim theorems: session progress tracker -/

/-- Claim C7, counterexample: in the successful session for
`scrollHeight = 21350, viewportHeight = 1000, overlapHeight = 75` (plan size
23, all 23 offsets captured) the numeric progress sequence ends with the loop
write `round(100 * 22 / 23) = 96` followed by the fixed `stitching` write 95,
so the sequence is not monotonically non-decreasing. -/
theorem claim7_counterexample :
    ¬ List.Chain' (· ≤ ·)
      (numericProgress (sessionWrites "s1" (numCaptures 21350 1000 75)
        ((planOffsets 21350 1000 75).length))) := by
  have hl : numericProgress (sessionWrites "s1" (numCaptures 21350 1000 75)
      ((planOffsets 21350 1000 75).length)) =
      [0, 4, 9, 13, 17, 22, 26, 30, 35, 39, 43, 48, 52, 57, 61, 65, 70, 74, 78,
        83, 87, 91, 96, 95, 100] := by
    decide
  rw [hl]
  intro h
  simp only [List.chain'_cons, List.chain'_singleton, and_true] at h
  omega

/-- Helper: `jsRound100` is the exact rounding of `100 * i / n`. -/
theorem jsRound100_eq (i n : ℕ) (hn : 0 < n) :
    (jsRound100 i n : ℤ) = ⌊(100 * i : ℚ) / (n : ℚ) + 1 / 2⌋ := by
  have h1 : (100 * i : ℚ) / (n : ℚ) + 1 / 2 =
      ((200 * i + n : ℕ) : ℚ) / ((2 * n : ℕ) : ℚ) := by
    have hn2 : ((n : ℚ)) ≠ 0 := by positivity
    push_cast
    field_simp
    ring
  rw [h1, Rat.floor_natCast_div_natCast]
  rfl

/-- Claim C7, amended: the capture-loop progress writes are monotonically
non-decreasing, every numeric progress value of a session whose captured count
is at most its plan size is at most the final completion value 100, the
captured count never exceeds the plan size, and after any write sequence the
tracker state equals the most recent write. -/
theorem claim7_amended :
    (∀ n k : ℕ, List.Chain' (· ≤ ·) ((List.range k).map (fun i => jsRound100 i n))) ∧
      (∀ (sid : String) (n k : ℕ), k ≤ n →
        ∀ p ∈ numericProgress (sessionWrites sid n k), p ≤ 100) ∧
      (∀ sh vh ov : ℕ, (planOffsets sh vh ov).length ≤ numCaptures sh vh ov) ∧
      (∀ (ws : List StateWrite) (w : StateWrite), runWrites (ws ++ [w]) = some w) := by
  refine ⟨?_, ?_, ?_, ?_⟩
  · intro n k
    rw [List.chain'_map]
    cases k with
    | zero => simp
    | succ m =>
      rw [List.chain'_range_succ]
      intro i _
      exact Nat.div_le_div_right (by omega)
  · intro sid n k hkn p hp
    have hn : ∀ i, i < k → jsRound100 i n ≤ 100 := by
      intro i hik
      have hin : i ≤ n := by omega
      have hn0 : 0 < n := by omega
      rw [jsRound100, Nat.div_le_iff_le_mul_add_pred (by omega)]
      omega
    simp only [numericProgress, sessionWrites, List.filterMap_append,
      List.mem_append] at hp
    rcases hp with (hp | hp) | hp
    · simp at hp
    · rw [List.mem_filterMap] at hp
      obtain ⟨w, hw, hpw⟩ := hp
      rw [List.mem_map] at hw
      obtain ⟨i, hi, hwi⟩ := hw
      rw [List.mem_range] at hi
      subst hwi
      simp at hpw
      subst hpw
      exact hn i hi
    · simp at hp
      rcases hp with h | h <;> omega
  · intro sh vh ov
    unfold planOffsets
    rw [List.length_map]
    exact le_trans (List.takeWhile_sublist _).length_le (by rw [List.length_range])
  · intro ws w
    rw [runWrites, List.foldl_append]
    rfl

/-- Claim C7, witness: the amended tracker theorem applied to a concrete
session of plan size 4 with 4 captured offsets and to a concrete two-write
sequence. -/
theorem claim7_amended_witness :
    List.Chain' (· ≤ ·) ((List.range 4).map (fun i => jsRound100 i 4)) ∧
      (∀ p ∈ numericProgress (sessionWrites "s1" 4 4), p ≤ 100) ∧
      runWrites [⟨"s1", "started", "Starting capture...", none⟩,
        ⟨"s1", "completed", "Capture complete!", some 100⟩] =
        some ⟨"s1", "completed", "Capture complete!", some 100⟩ :=
  ⟨claim7_amended.1 4 4, claim7_amended.2.1 "s1" 4 4 (by decide),
    claim7_amended.2.2.2 [⟨"s1", "started", "Starting capture...", none⟩] _⟩

/-- Claim C8, counterexample: a session that ends in the `error` terminal phase
schedules no deferred clear of the tracker record at all (the `setTimeout`
clear exists only on the success path), refuting retain-then-clear for both
terminal phases. -/
theorem claim8_counterexample :
    (startCaptureFinalize "s1" "boom" false).2 = none ∧
      (startCaptureFinalize "s1" "boom" false).1.status = "error" ∧
      (startCaptureFinalize "s1" "boom" true).2 = some 5000 := by
  refine ⟨rfl, rfl, rfl⟩

/-- Claim C8, amended: only a session reaching `completed` schedules the
deferred clear (after the fixed 5000 ms delay), and that clear removes the
record only when the session is still the current one; a session reaching
`error` schedules nothing and its record stays until a later session
overwrites it. -/
theorem claim8_amended (sid errMsg : String) (st : StateWrite) :
    (startCaptureFinalize sid errMsg true).2 = some 5000 ∧
      (startCaptureFinalize sid errMsg true).1.status = "completed" ∧
      (startCaptureFinalize sid errMsg false).2 = none ∧
      (startCaptureFinalize sid errMsg false).1.status = "error" ∧
      clearIfCurrent (some st) st.sessionId = none ∧
      (∀ sid2 : String, sid2 ≠ st.sessionId → clearIfCurrent (some st) sid2 = some st) := by
  refine ⟨rfl, rfl, rfl, rfl, ?_, ?_⟩
  · simp [clearIfCurrent]
  · intro sid2 h
    simp [clearIfCurrent]
    intro he
    exact absurd he.symm h

/-- Claim C8, witness: the amended cleanup theorem at a concrete session. -/
theorem claim8_amended_witness :
    (startCaptureFinalize "s1" "boom" true).2 = some 5000 ∧
      clearIfCurrent (some ⟨"s1", "completed", "Capture complete!", some 100⟩) "s2" =
        some ⟨"s1", "completed", "Capture complete!", some 100⟩ :=
  ⟨(claim8_amended "s1" "boom" ⟨"s1", "completed", "Capture complete!", some 100⟩).1,
    (claim8_amended "s1" "boom"
      ⟨"s1", "completed", "Capture complete!", some 100⟩).2.2.2.2.2 "s2" (by decide)⟩

/- ## Claim theorems: hotkey guard -/

/-- Claim C10: when a current capture state exists whose status is neither
`completed` nor `error`, the `capture-page` command does not start a new
capture session. -/
theorem claim10_hotkey_guard (st : StateWrite)
    (h1 : st.status ≠ "completed") (h2 : st.status ≠ "error") :
    hotkeyStartsNewCapture (some st) = false := by
  simp [hotkeyStartsNewCapture, h1, h2]

/-- Claim C10, witness: the guard blocks a concrete in-progress state. -/
theorem claim10_hotkey_guard_witness :
    hotkeyStartsNewCapture (some ⟨"s1", "capturing", "Capturing viewport 1/4...", some 0⟩) =
      false :=
  claim10_hotkey_guard ⟨"s1", "capturing", "Capturing viewport 1/4...", some 0⟩
    (by decide) (by decide)

/- ## Claim theorems: image stitcher -/

/-- Helper: `Rat.floor` agrees with the floor-ring floor. -/
theorem ratFloor_eq_intFloor (q : ℚ) : q.floor = ⌊q⌋ :=
  (Rat.floor_def' q).trans Rat.floor_def.symm

/-- Helper: `Math.floor` of an integer value is that value. -/
theorem ratFloor_intCast (n : ℤ) : ((n : ℚ)).floor = n := by
  rw [ratFloor_eq_intFloor]
  exact Int.floor_intCast n

/-- Helper: `sanitizeCanvasDimension` passes integer values in `[1, 32767]`
through unchanged. -/
theorem sanitizeCanvasDimension_intCast (n d : ℤ) (h1 : 1 ≤ n) (h2 : n ≤ 32767) :
    sanitizeCanvasDimension (some (JNum.fin (n : ℚ))) d = n := by
  simp only [sanitizeCanvasDimension, ratFloor_intCast]
  rw [if_neg (by omega), if_neg (by omega)]

/-- Helper: `sanitizeCanvasDimension` caps integer values above 32767. -/
theorem sanitizeCanvasDimension_top (n d : ℤ) (h : 32767 < n) :
    sanitizeCanvasDimension (some (JNum.fin (n : ℚ))) d = 32767 := by
  simp only [sanitizeCanvasDimension, ratFloor_intCast]
  by_cases h1 : n < 1
  · omega
  · rw [if_neg h1, if_pos (by omega)]

/-- Helper: the sanitized dimension always lands in `[1, 32767]` when the
default does (the stitcher's defaults are 800 and 600). -/
theorem sanitizeCanvasDimension_bounds (v : Option JNum) (d : ℤ)
    (hd1 : 1 ≤ d) (hd2 : d ≤ 32767) :
    1 ≤ sanitizeCanvasDimension v d ∧ sanitizeCanvasDimension v d ≤ 32767 := by
  match v with
  | none => exact ⟨hd1, hd2⟩
  | some JNum.nan => exact ⟨hd1, hd2⟩
  | some JNum.posInf => exact ⟨hd1, hd2⟩
  | some JNum.negInf => exact ⟨hd1, hd2⟩
  | some (JNum.fin q) =>
    simp only [sanitizeCanvasDimension]
    by_cases h1 : q.floor < 1
    · rw [if_pos h1]
      constructor
      · split <;> omega
      · split <;> omega
    · rw [if_neg h1]
      constructor
      · split <;> omega
      · split <;> omega

/-- Helper: `sanitizeCanvasDimension` falls back to the default on any
non-positive finite value. -/
theorem sanitizeCanvasDimension_nonpos (q : ℚ) (d : ℤ) (h : q ≤ 0)
    (hd : d ≤ 32767) :
    sanitizeCanvasDimension (some (JNum.fin q)) d = d := by
  have hf : q.floor < 1 := by
    rw [ratFloor_eq_intFloor]
    have h0 : ⌊q⌋ ≤ ⌊(0 : ℚ)⌋ := Int.floor_le_floor h
    simp only [Int.floor_zero] at h0
    omega
  simp only [sanitizeCanvasDimension]
  rw [if_pos hf, if_neg (by omega)]

/-- Helper: the height accumulation loop in closed form. -/
theorem foldl_sub_overlap_sum (ov : ℤ) :
    ∀ (l : List ℤ) (acc : ℤ),
      l.foldl (fun a h => a + (h - ov)) acc = acc + (l.map (fun h => h - ov)).sum := by
  intro l
  induction l with
  | nil => intro acc; simp
  | cons h t ih =>
    intro acc
    rw [List.foldl_cons, ih, List.map_cons, List.sum_cons]
    ring

/-- Helper: the stitcher's `totalHeight` equals the first height plus the sum
of the later heights each reduced by the overlap. -/
theorem stitchTotalHeight_cons (h0 : ℤ) (hs : List ℤ) (ov : ℤ) :
    stitchTotalHeight (h0 :: hs) ov = h0 + (hs.map (fun h => h - ov)).sum := by
  rw [stitchTotalHeight, foldl_sub_overlap_sum]

/-- Helper: one draw-loop step leaves the canvas width unchanged. -/
theorem stitchDrawStep_width (ov cw : ℕ) (st : Canvas × ℕ × ℕ) (img : JImage) :
    (stitchDrawStep ov cw st img).1.width = st.1.width := by
  by_cases h : 0 < st.2.1 <;> simp [stitchDrawStep, drawImage, h]

/-- Helper: one draw-loop step leaves the canvas height unchanged. -/
theorem stitchDrawStep_height (ov cw : ℕ) (st : Canvas × ℕ × ℕ) (img : JImage) :
    (stitchDrawStep ov cw st img).1.height = st.1.height := by
  by_cases h : 0 < st.2.1 <;> simp [stitchDrawStep, drawImage, h]

/-- Helper: the whole draw loop leaves the canvas width unchanged. -/
theorem stitch_foldl_width (ov cw : ℕ) :
    ∀ (l : List JImage) (st : Canvas × ℕ × ℕ),
      (l.foldl (stitchDrawStep ov cw) st).1.width = st.1.width := by
  intro l
  induction l with
  | nil => intro st; rfl
  | cons img t ih =>
    intro st
    rw [List.foldl_cons, ih, stitchDrawStep_width]

/-- Helper: the whole draw loop leaves the canvas height unchanged. -/
theorem stitch_foldl_height (ov cw : ℕ) :
    ∀ (l : List JImage) (st : Canvas × ℕ × ℕ),
      (l.foldl (stitchDrawStep ov cw) st).1.height = st.1.height := by
  intro l
  induction l with
  | nil => intro st; rfl
  | cons img t ih =>
    intro st
    rw [List.foldl_cons, ih, stitchDrawStep_height]

/-- Claim C3: for every non-empty frame list the stitched canvas height is the
sanitized value of `height(frame 0) + sum over later frames of (height -
overlapHeight)`; the sanitizer caps 40000 at 32767 (so an oversized canvas is
clamped, not a failure), always lands in `[1, 32767]`, and sends `NaN`, the
infinities, `undefined`/`null` and every non-positive value to the fixed
default. -/
theorem claim3_stitch_height (f0 : JImage) (rest : List JImage) (ov : ℕ) :
    stitchedHeight (stitchCapturedViewports (f0 :: rest) ov) =
        some ((sanitizeCanvasDimension (some (JNum.fin
          ((((f0.height : ℤ) +
            (rest.map (fun f => (f.height : ℤ) - (ov : ℤ))).sum) : ℤ) : ℚ))) 600).toNat) ∧
      sanitizeCanvasDimension (some (JNum.fin ((40000 : ℤ) : ℚ))) 600 = 32767 ∧
      (∀ v : Option JNum, 1 ≤ sanitizeCanvasDimension v 600 ∧
        sanitizeCanvasDimension v 600 ≤ 32767) ∧
      sanitizeCanvasDimension (some JNum.nan) 600 = 600 ∧
      sanitizeCanvasDimension (some JNum.posInf) 600 = 600 ∧
      sanitizeCanvasDimension (some JNum.negInf) 600 = 600 ∧
      sanitizeCanvasDimension none 600 = 600 ∧
      (∀ q : ℚ, q ≤ 0 → sanitizeCanvasDimension (some (JNum.fin q)) 600 = 600) := by
  refine ⟨?_, sanitizeCanvasDimension_top 40000 600 (by norm_num),
    fun v => sanitizeCanvasDimension_bounds v 600 (by norm_num) (by norm_num),
    rfl, rfl, rfl, rfl,
    fun q hq => sanitizeCanvasDimension_nonpos q 600 hq (by norm_num)⟩
  simp only [stitchedHeight, stitchCapturedViewports, Option.map_some']
  rw [stitch_foldl_height]
  rw [List.map_cons, stitchTotalHeight_cons, List.map_map]
  rfl

/-- Claim C3, witness: stitching the single 800 × 40000 frame yields a canvas
of height 32767, and the default replaces a zero height. -/
theorem claim3_stitch_height_witness :
    stitchedHeight (stitchCapturedViewports [tallImage] 75) = some 32767 ∧
      sanitizeCanvasDimension (some (JNum.fin (0 : ℚ))) 600 = 600 := by
  obtain ⟨h1, h2, _, _, _, _, _, h8⟩ := claim3_stitch_height tallImage [] 75
  constructor
  · have e : ((tallImage.height : ℤ) +
        (([] : List JImage).map (fun f => (f.height : ℤ) - ((75 : ℕ) : ℤ))).sum) =
        (40000 : ℤ) := by
      norm_num [tallImage]
    rw [h1, e, h2]
    rfl
  · exact h8 0 le_rfl

/-- Claim C9: stitching a single frame whose dimensions are inside the canvas
dimension range produces a canvas of exactly the frame's dimensions whose every
pixel is the frame's pixel, fully opaque: the frame is drawn once, in full, at
`y = 0`, with no overlap blending. -/
theorem claim9_single_frame (img : JImage) (ov : ℕ)
    (hw1 : 1 ≤ img.width) (hw2 : img.width ≤ 32767)
    (hh1 : 1 ≤ img.height) (hh2 : img.height ≤ 32767) :
    stitchedWidth (stitchCapturedViewports [img] ov) = some img.width ∧
      stitchedHeight (stitchCapturedViewports [img] ov) = some img.height ∧
      ∀ x y : ℕ, x < img.width → y < img.height →
        stitchedPix (stitchCapturedViewports [img] ov) x y = some ⟨img.pix x y, 1⟩ := by
  have hW : sanitizeCanvasDimension (some (JNum.fin ((img.width : ℤ) : ℚ))) 800 =
      (img.width : ℤ) :=
    sanitizeCanvasDimension_intCast _ _ (by exact_mod_cast hw1) (by exact_mod_cast hw2)
  have hH : sanitizeCanvasDimension (some (JNum.fin ((img.height : ℤ) : ℚ))) 600 =
      (img.height : ℤ) :=
    sanitizeCanvasDimension_intCast _ _ (by exact_mod_cast hh1) (by exact_mod_cast hh2)
  have hTH : stitchTotalHeight [(img.height : ℤ)] (ov : ℤ) = (img.height : ℤ) := rfl
  have hstep : stitchCapturedViewports [img] ov =
      some (drawImage ⟨img.width, img.height, fun _ _ => Px.transparent⟩ img 0 0
        img.width img.height 0 0 1) := by
    simp only [stitchCapturedViewports, List.map_cons, List.map_nil, hTH, hW, hH,
      Int.toNat_natCast, List.foldl_cons, List.foldl_nil, stitchDrawStep,
      eq_self_iff_true, lt_self_iff_false, ite_true, ite_false, Nat.sub_zero,
      Nat.add_zero, Nat.zero_add]
  refine ⟨?_, ?_, ?_⟩
  · rw [hstep]
    simp [stitchedWidth, drawImage]
  · rw [hstep]
    simp [stitchedHeight, drawImage]
  · intro x y hx hy
    rw [hstep]
    simp only [stitchedPix, Option.map_some', drawImage]
    rw [if_pos ⟨hx, hy, Nat.zero_le x, by omega, Nat.zero_le y, by omega⟩]
    simp [overComposite, Px.transparent]

/-- Claim C9, witness: the single-frame theorem applied to the concrete 2 × 3
frame, with the pixel conclusion read off at `(1, 2)`. -/
theorem claim9_single_frame_witness :
    stitchedWidth (stitchCapturedViewports [witnessImage] 1) = some 2 ∧
      stitchedHeight (stitchCapturedViewports [witnessImage] 1) = some 3 ∧
      stitchedPix (stitchCapturedViewports [witnessImage] 1) 1 2 = some ⟨21, 1⟩ := by
  obtain ⟨h1, h2, h3⟩ := claim9_single_frame witnessImage 1
    (by decide) (by decide) (by decide) (by decide)
  refine ⟨h1, h2, ?_⟩
  rw [h3 1 2 (by decide) (by decide)]
  norm_num [witnessImage]

/-- Claim C2, the code evaluated at a concrete input (two frames of width 1 and
height 6, pixel values `row` and `100 + row`, `overlapHeight = 2`, canvas
height `6 + 4 = 10`).  The claim expects frame 1's first 2 source rows blended
at 50% over the previous frame's bottom rows and its remaining rows (source
rows 2..5) drawn opaquely below.  Instead: the previous frame's bottom row at
`y = 4` keeps its unblended value `⟨4, 1⟩`; `y = 6` (just below frame 0, which
ends at `y = 5`) holds source row 2 of frame 1 at 50% alpha over blank canvas,
`⟨51, 1/2⟩`; `y = 8` holds the same source row 2 again, opaquely, `⟨102, 1⟩`;
and the last canvas row `y = 9` holds source row 3, `⟨103, 1⟩`, so frame 1's
first and last 2 source rows are never drawn and rows 2..3 are drawn twice. -/
theorem claim2_code_eval :
    stitchedHeight (stitchCapturedViewports [frameA, frameB] 2) = some 10 ∧
      stitchedPix (stitchCapturedViewports [frameA, frameB] 2) 0 4 = some ⟨4, 1⟩ ∧
      stitchedPix (stitchCapturedViewports [frameA, frameB] 2) 0 6 = some ⟨51, 1 / 2⟩ ∧
      stitchedPix (stitchCapturedViewports [frameA, frameB] 2) 0 8 = some ⟨102, 1⟩ ∧
      stitchedPix (stitchCapturedViewports [frameA, frameB] 2) 0 9 = some ⟨103, 1⟩ := by
  have hth : stitchTotalHeight [(frameA.height : ℤ), (frameB.height : ℤ)]
      ((2 : ℕ) : ℤ) = (10 : ℤ) := by
    norm_num [stitchTotalHeight, frameA, frameB]
  have hsanW : sanitizeCanvasDimension (some (JNum.fin ((frameA.width : ℤ) : ℚ))) 800 =
      (frameA.width : ℤ) :=
    sanitizeCanvasDimension_intCast _ _ (by norm_num [frameA]) (by norm_num [frameA])
  have hsanH : sanitizeCanvasDimension (some (JNum.fin ((10 : ℤ) : ℚ))) 600 =
      (10 : ℤ) :=
    sanitizeCanvasDimension_intCast _ _ (by norm_num) (by norm_num)
  have hstep : stitchCapturedViewports [frameA, frameB] 2 =
      some (drawImage (drawImage (drawImage ⟨1, 10, fun _ _ => Px.transparent⟩
        frameA 0 0 1 6 0 0 1) frameB 0 2 1 2 0 6 (1 / 2)) frameB 0 2 1 2 0 8 1) := by
    simp only [stitchCapturedViewports, List.map_cons, List.map_nil]
    rw [hth, hsanW, hsanH]
    norm_num [stitchDrawStep, frameA, frameB]
    rfl
  rw [hstep]
  refine ⟨rfl, ?_, ?_, ?_, ?_⟩ <;>
    norm_num [stitchedPix, drawImage, overComposite, Px.transparent,
      frameA, frameB, Px.mk.injEq]
